import Mathlib

/-!
Shallow embedding of the MarsPro Home Assistant integration
(custom_components/marshydro/api.py and config_flow.py).

Modelling conventions:

* The `deviceInfo` field of a device record is a JSON string in the
  source; it is modelled here by its parse outcome: `RawInfo.valid
  fields` stands for a string that `json.loads` turns into an object
  with integer-valued fields, `RawInfo.invalid` for a string on which
  `json.loads` raises.  The claims under study only quantify over
  integer-valued fields and over malformed strings, so this covers
  every case they mention.
* A Python function that catches its exceptions and returns `None`
  is modelled with `Option`; a Python function that can let an
  exception escape is modelled with `Except PyExc`.
* Network requests are modelled by an oracle argument giving the
  outcome of each request (`TransportOutcome`, or directly the
  `Option ApiResp` that `_api_request` produces), since the HTTP
  session is an external collaborator.
* The source computes `int(fan_speed / 8.4)`, `int(last_bright * 255
  / 100)` and `int(brightness * 100 / 255)` with IEEE double
  division followed by `int`'s truncation toward zero.  Because
  8.4 = 42/5, the exact values are `fan_speed*5/42`, `last_bright*255/100`
  and `brightness*100/255`; over the integer ranges quantified in the
  claims (raw speeds 0..840, raw brightness 0..100, host brightness
  0..255) the double rounding never crosses an integer boundary, so
  truncation of the double equals truncation of the exact rational,
  which for these nonnegative ranges is `Int.tdiv`.  The embedding
  therefore uses `Int.tdiv` on the scaled integers.
-/

namespace MarsPro

/-- Python exception kinds that the embedded code can raise or catch. -/
inductive PyExc where
| typeError
| attributeError
| jsonDecodeError
deriving DecidableEq, Repr

/-- Parse outcome of a `deviceInfo` JSON string: either an object with
integer-valued fields, or a string `json.loads` rejects. -/
inductive RawInfo where
| valid (fields : List (String × Int))
| invalid
deriving DecidableEq, Repr

/-- Embedding of `json.loads` applied to a `deviceInfo` string, as
classified by `RawInfo`. -/
def jsonLoads : RawInfo → Except PyExc (List (String × Int))
| RawInfo.valid fields => Except.ok fields
| RawInfo.invalid => Except.error PyExc.jsonDecodeError

/-- Embedding of Python `dict.get(key, default)` on a parsed object. -/
def dictGet (fields : List (String × Int)) (key : String) (dflt : Int) : Int :=
  match fields.find? (fun p => p.1 == key) with
  | some p => p.2
  | none => dflt

/-- A device record as used by the entity classes: the `id` field and
the `deviceInfo` JSON string (modelled by its parse outcome; `none`
means the key is absent, in which case the source falls back to the
literal string `"{}"`, i.e. the empty valid object). -/
structure Device where
  id : Int
  deviceInfo : Option RawInfo
deriving DecidableEq, Repr

/-- Raw-to-host conversion factored from `MarsProLight.brightness`:
`min(max(int(last_bright * 255 / 100), 0), 255)`. -/
def raw_to_host_brightness (last_bright : Int) : Int :=
  min (max ((last_bright * 255).tdiv 100) 0) 255

/-- Host-to-raw conversion factored from `MarsProLight.async_turn_on`:
`int(brightness * 100 / 255)`. -/
def host_to_raw_percentage (b : Int) : Int :=
  (b * 100).tdiv 255

/-- Embedding of the `MarsProLight.brightness` property: parse
`deviceInfo` (defaulting to `"{}"` when absent), read `lastBright`
(default 0), convert to the 0..255 scale; on any exception, log and
return `None` (modelled as `none`). -/
def brightness (d : Device) : Option Int :=
  let device_info := d.deviceInfo.getD (RawInfo.valid [])
  match jsonLoads device_info with
  | Except.ok info_dict =>
      let last_bright := dictGet info_dict "lastBright" 0
      some (raw_to_host_brightness last_bright)
  | Except.error _ => none

/-- Embedding of the `MarsProLight.is_on` property: `self.brightness > 0`.
When `brightness` is `None`, the Python comparison `None > 0` raises
`TypeError`, modelled as `Except.error`. -/
def is_on (d : Device) : Except PyExc Bool :=
  match brightness d with
  | some b => Except.ok (decide (0 < b))
  | none => Except.error PyExc.typeError

/-- Embedding of the `MarsProFan.percentage` property: parse
`deviceInfo` (defaulting to `"{}"` when absent), read `fanSpeed`
(default 0); 0 maps to 0, otherwise `min(max(int(fan_speed / 8.4), 25), 100)`
(with `fan_speed / 8.4 = fan_speed * 5 / 42` exactly); on any
exception, log and return `None`. -/
def percentage (d : Device) : Option Int :=
  let device_info := d.deviceInfo.getD (RawInfo.valid [])
  match jsonLoads device_info with
  | Except.ok info_dict =>
      let fan_speed := dictGet info_dict "fanSpeed" 0
      if fan_speed = 0 then some 0
      else some (min (max ((fan_speed * 5).tdiv 42) 25) 100)
  | Except.error _ => none

/-- A command issued to the MarsPro API by the entity methods. -/
inductive ApiCommand where
| setFanSpeed (deviceId : Int) (speedPercentage : Int)
| setLightBrightness (deviceId : Int) (brightnessPercentage : Int)
deriving DecidableEq, Repr

/-- The brightness percentage computed by `MarsProLight.async_turn_on`:
`int(brightness * 100 / 255)` when a host brightness argument is given,
otherwise the raw `lastBright` (default 50, also 50 when `deviceInfo`
is malformed). -/
def turn_on_brightness_percentage (brightness_arg : Option Int) (d : Device) : Int :=
  match brightness_arg with
  | some b => host_to_raw_percentage b
  | none =>
      match jsonLoads (d.deviceInfo.getD (RawInfo.valid [])) with
      | Except.ok info_dict => dictGet info_dict "lastBright" 50
      | Except.error _ => 50

/-- Embedding of `MarsProLight.async_turn_on`: the command it sends. -/
def light_async_turn_on (d : Device) (brightness_arg : Option Int) : ApiCommand :=
  ApiCommand.setLightBrightness d.id (turn_on_brightness_percentage brightness_arg d)

/-- Embedding of `MarsProLight.async_turn_off`: sends raw level 0. -/
def light_async_turn_off (d : Device) : ApiCommand :=
  ApiCommand.setLightBrightness d.id 0

/-- Embedding of `MarsProFan.async_set_percentage`: `None` becomes 0,
then the value is clamped by `min(max(int(percentage), 25), 100)`
before being sent to `set_fan_speed`. -/
def fan_async_set_percentage (d : Device) (percentage_arg : Option Int) : ApiCommand :=
  let p := percentage_arg.getD 0
  ApiCommand.setFanSpeed d.id (min (max p 25) 100)

/-- Embedding of `MarsProFan.async_turn_on`: uses the given percentage,
or 25 when none is supplied. -/
def fan_async_turn_on (d : Device) (percentage_arg : Option Int) : ApiCommand :=
  match percentage_arg with
  | some p => fan_async_set_percentage d (some p)
  | none => fan_async_set_percentage d (some 25)

/-- Embedding of `MarsProFan.async_turn_off`: sets the minimum speed 25. -/
def fan_async_turn_off (d : Device) : ApiCommand :=
  fan_async_set_percentage d (some 25)

/-- A light device whose `deviceInfo` decodes to `{"lastBright": r}`. -/
def mkLight (r : Int) : Device :=
  { id := 1, deviceInfo := some (RawInfo.valid [("lastBright", r)]) }

/-- A fan device whose `deviceInfo` decodes to `{"fanSpeed": s}`. -/
def mkFan (s : Int) : Device :=
  { id := 2, deviceInfo := some (RawInfo.valid [("fanSpeed", s)]) }

/-- A device whose `deviceInfo` string is not valid JSON. -/
def badInfoDevice : Device :=
  { id := 3, deviceInfo := some RawInfo.invalid }

/-! ### API client: responses, login, catalog refresh -/

/-- The `data` object of a device-list response: it may or may not
carry a `list` field. -/
structure RespData where
  list : Option (List Device)
deriving DecidableEq, Repr

/-- A parsed JSON response body: the status `code` and the optional
`data` object. -/
structure ApiResp where
  code : String
  data : Option RespData
deriving DecidableEq, Repr

/-- Embedding of `response.get("data", {}).get("list", [])`. -/
def respDataList (r : ApiResp) : List Device :=
  match r.data with
  | some d => d.list.getD []
  | none => []

/-- Outcome of one HTTP round trip inside `_api_request`: a parsed
response body, or an exception from the session / JSON parse. -/
inductive TransportOutcome where
| ok (resp : ApiResp)
| exc
deriving DecidableEq, Repr

/-- Embedding of `MarsProApi._api_request`: a transport exception is
caught and yields `None`; a response whose `code` is not `"000"` is
logged and yields `None`; otherwise the response is returned. -/
def api_request (t : TransportOutcome) : Option ApiResp :=
  match t with
  | TransportOutcome.ok r => if r.code = "000" then some r else none
  | TransportOutcome.exc => none

/-- Embedding of `MarsProApi.login`: `True` iff the "mine/info" request
returns a response with `code == "000"`; never raises. -/
def login (t : TransportOutcome) : Bool :=
  match api_request t with
  | some r => r.code = "000"
  | none => false

/-- The light device-product group id, 1. -/
def PRODUCT_GROUP_LIGHT : Int := 1

/-- The fan device-product group id, 2. -/
def PRODUCT_GROUP_FAN : Int := 2

/-- The opportunistically fetched other group ids. -/
def PRODUCT_GROUP_OTHER : List Int := [3, 6, 7]

/-- The entry that `update_data` adds for the light or fan group `g`:
present exactly when the request result is a response with
`code == "000"`. -/
def update_group_entry (fetch : Int → Option ApiResp) (g : Int) :
    Option (Int × List Device) :=
  match fetch g with
  | some r => if r.code = "000" then some (g, respDataList r) else none
  | none => none

/-- The entry that `update_data` adds for one "other" group id `g`:
present only when the request result is a response with `code == "000"`
whose `data.list` is a non-empty list (Python truthiness of
`other_data.get("data", {}).get("list")`). -/
def update_other_entry (fetch : Int → Option ApiResp) (g : Int) :
    Option (Int × List Device) :=
  match fetch g with
  | some r =>
      if r.code = "000" ∧ respDataList r ≠ [] then some (g, respDataList r)
      else none
  | none => none

/-- Embedding of `MarsProApi.update_data`, parameterised by the oracle
`fetch` giving `_api_request`'s result for each `deviceProductGroup`
id.  The returned association list stands for the Python dict `result`
(its keys 1, 2, 3, 6, 7 are pairwise distinct, so insertion order is
the only difference). -/
def update_data (fetch : Int → Option ApiResp) : List (Int × List Device) :=
  (update_group_entry fetch PRODUCT_GROUP_LIGHT).toList ++
  (update_group_entry fetch PRODUCT_GROUP_FAN).toList ++
  PRODUCT_GROUP_OTHER.filterMap (update_other_entry fetch)

/-- Embedding of `MarsProApi.set_fan_speed`, parameterised by the
results of its two "calculate" requests.  The log line evaluates
`cfm_response.get('data')` and `pa_response.get('data')`; when either
result is `None`, the attribute access raises `AttributeError`, which
nothing catches; otherwise the method returns `True`. -/
def set_fan_speed (deviceId speed_percentage : Int)
    (cfm_response pa_response : Option ApiResp) : Except PyExc Bool :=
  match cfm_response with
  | none => Except.error PyExc.attributeError
  | some _ =>
      match pa_response with
      | none => Except.error PyExc.attributeError
      | some _ => Except.ok true

/-! ### Config flow -/

/-- The user-visible configuration errors raised out of
`validate_input` / shown by `async_step_user`. -/
inductive ConfigFlowError where
| cannotConnect
| invalidAuth
| unknownError
deriving DecidableEq, Repr

/-- Embedding of `config_flow.validate_input`: inside the `try` block
the result of `api.login()` is tested and `InvalidAuth` is raised when
it is falsy; the enclosing `except Exception` clause catches **every**
exception raised in the block — including that `InvalidAuth` — and
re-raises `CannotConnect`. -/
def validate_input (t : TransportOutcome) : Except ConfigFlowError String :=
  let tryBlock : Except ConfigFlowError String :=
    if login t then Except.ok "MarsPro" else Except.error ConfigFlowError.invalidAuth
  match tryBlock with
  | Except.ok title => Except.ok title
  | Except.error _ => Except.error ConfigFlowError.cannotConnect

/-- Embedding of `MarsProConfigFlow.async_step_user` on submitted
credentials: the `errors["base"]` value shown to the operator, `none`
when the entry is created. -/
def async_step_user (t : TransportOutcome) : Option String :=
  match validate_input t with
  | Except.ok _ => none
  | Except.error ConfigFlowError.cannotConnect => some "cannot_connect"
  | Except.error ConfigFlowError.invalidAuth => some "invalid_auth"
  | Except.error ConfigFlowError.unknownError => some "unknown"

/-! ### Reference formulas written from the spec's words -/

/-- Modelled from the spec: host-to-raw brightness
`round(hostBrightness * 100 / 255)`. -/
def spec_host_to_raw (h : Int) : Int :=
  round ((h * 100 : ℚ) / 255)

/-- Modelled from the spec: raw-to-host brightness
`clamp(round(raw * 255 / 100), 0, 255)`. -/
def spec_raw_to_host (r : Int) : Int :=
  min (max (round ((r * 255 : ℚ) / 100)) 0) 255

/-- Modelled from the spec: fan raw-to-host percentage, `0` if raw is
`0`, otherwise `clamp(round(raw / 8.4), 25, 100)`. -/
def spec_fan_percentage (s : Int) : Int :=
  if s = 0 then 0 else min (max (round ((s * 5 : ℚ) / 42)) 25) 100

/-- The amended fan formula: truncation instead of rounding. -/
def floor_fan_percentage (s : Int) : Int :=
  if s = 0 then 0 else min (max ⌊(s * 5 : ℚ) / 42⌋ 25) 100

/-- The amended host-to-raw brightness formula: truncation instead of
rounding. -/
def floor_host_to_raw (h : Int) : Int :=
  ⌊(h * 100 : ℚ) / 255⌋

/-- The amended raw-to-host brightness formula: truncation instead of
rounding. -/
def floor_raw_to_host (r : Int) : Int :=
  min (max ⌊(r * 255 : ℚ) / 100⌋ 0) 255

/-! ### Concrete inputs used to instantiate the theorems -/

/-- A fetch oracle where only the Light-group request succeeds. -/
def fetchLightOnly : Int → Option ApiResp := fun g =>
  if g = 1 then some { code := "000", data := some { list := some [mkLight 50] } }
  else none

/-- The Light-group response produced by `fetchLightOnly`. -/
def lightOnlyResp : ApiResp :=
  { code := "000", data := some { list := some [mkLight 50] } }

/-- A fetch oracle where every request succeeds with an empty list. -/
def fetchOtherEmpty : Int → Option ApiResp := fun _ =>
  some { code := "000", data := some { list := some [] } }

/-- A login round trip where the server answers with a non-success
status code: credentials declined. -/
def declinedLogin : TransportOutcome :=
  TransportOutcome.ok { code := "999", data := none }

/-! ### Helper lemmas -/

/-- Truncating division of a nonnegative integer by a natural number
equals the rational floor, bridging Python `int(a / d)` (for the exact
quotient) and `Int.tdiv`. -/
lemma tdiv_eq_floor_q (a : ℤ) (d : ℕ) (ha : 0 ≤ a) :
    a.tdiv (d : ℤ) = ⌊(a : ℚ) / (d : ℚ)⌋ := by
  rw [Rat.floor_intCast_div_natCast, Int.tdiv_eq_ediv ha (Int.natCast_nonneg d)]

/-- An entry produced for an "other" group carries that group's id as
its key. -/
lemma update_other_entry_key (fetch : Int → Option ApiResp) (g : Int)
    (p : Int × List Device) (h : update_other_entry fetch g = some p) :
    p.1 = g := by
  unfold update_other_entry at h
  cases hf : fetch g with
  | none => rw [hf] at h; cases h
  | some r =>
      rw [hf] at h
      dsimp only at h
      by_cases hc : r.code = "000" ∧ respDataList r ≠ []
      · rw [if_pos hc] at h; cases h; rfl
      · rw [if_neg hc] at h; cases h

/-- An "other" group contributes an entry exactly when its request
succeeded with status `"000"` and a non-empty list. -/
lemma update_other_entry_isSome (fetch : Int → Option ApiResp) (g : Int) :
    (∃ p, update_other_entry fetch g = some p) ↔
      ∃ r, fetch g = some r ∧ r.code = "000" ∧ respDataList r ≠ [] := by
  unfold update_other_entry
  cases hf : fetch g with
  | none => simp
  | some r =>
      by_cases hc : r.code = "000" ∧ respDataList r ≠ []
      · simp [hc]
      · simp only [if_neg hc]
        simp only [not_and_or] at hc
        rcases hc with hc | hc <;> simp [hc]

/-- Characterisation of the keys contributed by the "other" groups. -/
lemma mem_other_part_keys (fetch : Int → Option ApiResp) (g : Int) :
    g ∈ (PRODUCT_GROUP_OTHER.filterMap (update_other_entry fetch)).map Prod.fst ↔
      g ∈ PRODUCT_GROUP_OTHER ∧
        ∃ r, fetch g = some r ∧ r.code = "000" ∧ respDataList r ≠ [] := by
  constructor
  · intro hmem
    rcases List.mem_map.mp hmem with ⟨p, hp, hfst⟩
    rcases List.mem_filterMap.mp hp with ⟨g2, hg2, hent⟩
    have hkey := update_other_entry_key fetch g2 p hent
    have hgg : g2 = g := by rw [← hfst, hkey]
    subst hgg
    exact ⟨hg2, (update_other_entry_isSome fetch g2).mp ⟨p, hent⟩⟩
  · rintro ⟨hg, hr⟩
    rcases (update_other_entry_isSome fetch g).mpr hr with ⟨p, hent⟩
    have hkey := update_other_entry_key fetch g p hent
    exact List.mem_map.mpr ⟨p, List.mem_filterMap.mpr ⟨g, hg, hent⟩, hkey⟩

/-- An entry produced for the light or fan group carries that group's
id as its key. -/
lemma update_group_entry_key (fetch : Int → Option ApiResp) (g : Int)
    (p : Int × List Device) (h : update_group_entry fetch g = some p) :
    p.1 = g := by
  unfold update_group_entry at h
  cases hf : fetch g with
  | none => rw [hf] at h; cases h
  | some r =>
      rw [hf] at h
      dsimp only at h
      by_cases hc : r.code = "000"
      · rw [if_pos hc] at h; cases h; rfl
      · rw [if_neg hc] at h; cases h

/-! ### Claim theorems -/

/-- C1 (counterexample): the claim says a malformed `deviceInfo` decodes
the derived attribute to the neutral default 0; on the device
`badInfoDevice`, whose `deviceInfo` is not valid JSON, both the
brightness and the percentage properties in fact return `None`, not 0. -/
theorem C1_counterexample :
    brightness badInfoDevice ≠ some 0 ∧ percentage badInfoDevice ≠ some 0 := by
  decide

/-- C1 (amended): for every light or fan device whose `deviceInfo`
field is not valid JSON, decoding the derived attribute (brightness for
lights, speed percentage for fans) yields `None` — not 0 — and the
property getter itself does not raise (the parse exception is caught). -/
theorem C1_malformed_decodes_none (d : Device)
    (h : d.deviceInfo = some RawInfo.invalid) :
    brightness d = none ∧ percentage d = none := by
  simp [brightness, percentage, h, jsonLoads]

/-- C1 witness: the amended statement instantiated at `badInfoDevice`. -/
theorem C1_malformed_decodes_none_witness :
    badInfoDevice.deviceInfo = some RawInfo.invalid ∧
    brightness badInfoDevice = none ∧ percentage badInfoDevice = none :=
  ⟨rfl, C1_malformed_decodes_none badInfoDevice rfl⟩

/-- C2 (counterexample): the claim's formula `clamp(round(s / 8.4), 25, 100)`
disagrees with the code at raw speed 216: the code truncates
`216 / 8.4 = 25.71…` to 25, while rounding gives 26. -/
theorem C2_counterexample :
    percentage (mkFan 216) = some 25 ∧ spec_fan_percentage 216 = 26 ∧
    percentage (mkFan 216) ≠ some (spec_fan_percentage 216) := by
  have h1 : percentage (mkFan 216) = some 25 := by decide
  have h2 : spec_fan_percentage 216 = 26 := by
    rw [spec_fan_percentage]; norm_num [round_eq]
  exact ⟨h1, h2, by rw [h1, h2]; decide⟩

/-- C2 (amended): for every raw fan speed s in [0, 840], the reported
percentage is 0 when s = 0 and `clamp(floor(s / 8.4), 25, 100)` —
truncation, not rounding — otherwise; hence it lies in {0} ∪ [25, 100].
The claim's sample points are unaffected: s = 0 ↦ 0, s = 420 ↦ 50,
s = 840 ↦ 100, s = 50 ↦ 25. -/
theorem C2_fan_percentage_floor (s : ℤ) (h0 : 0 ≤ s) (h1 : s ≤ 840) :
    percentage (mkFan s) = some (floor_fan_percentage s) ∧
    (floor_fan_percentage s = 0 ∨
      (25 ≤ floor_fan_percentage s ∧ floor_fan_percentage s ≤ 100)) ∧
    (s = 0 → floor_fan_percentage s = 0) := by
  have hfloor : (s * 5).tdiv 42 = ⌊(s * 5 : ℚ) / 42⌋ := by
    have h := tdiv_eq_floor_q (s * 5) 42 (by positivity)
    push_cast at h
    exact h
  unfold floor_fan_percentage
  by_cases hz : s = 0
  · subst hz
    refine ⟨?_, Or.inl rfl, fun _ => rfl⟩
    simp [percentage, mkFan, jsonLoads, dictGet]
  · simp only [if_neg hz]
    refine ⟨?_, Or.inr ⟨le_min (le_max_right _ _) (by norm_num), min_le_right _ _⟩,
      fun hc => absurd hc hz⟩
    simp only [percentage, mkFan, jsonLoads, dictGet, List.find?, hz, if_neg hz]
    simp [hz, hfloor]

/-- C2 witness: the amended statement instantiated at raw speed 420. -/
theorem C2_fan_percentage_floor_witness :
    percentage (mkFan 420) = some (floor_fan_percentage 420) ∧
    (floor_fan_percentage 420 = 0 ∨
      (25 ≤ floor_fan_percentage 420 ∧ floor_fan_percentage 420 ≤ 100)) ∧
    ((420 : ℤ) = 0 → floor_fan_percentage 420 = 0) :=
  C2_fan_percentage_floor 420 (by norm_num) (by norm_num)

/-- C3: when the Fan-group list request fails and the Light-group
request succeeds, the refreshed snapshot maps the Light group to the
returned device list and has no key for the Fan group; `update_data`
is a total function of the request outcomes, so no exception escapes
the refresh. -/
theorem C3_partial_success (fetch : Int → Option ApiResp) (lr : ApiResp)
    (hl : fetch PRODUCT_GROUP_LIGHT = some lr) (hcode : lr.code = "000")
    (hf : fetch PRODUCT_GROUP_FAN = none) :
    List.lookup PRODUCT_GROUP_LIGHT (update_data fetch) = some (respDataList lr) ∧
    PRODUCT_GROUP_FAN ∉ (update_data fetch).map Prod.fst := by
  have hlight : update_group_entry fetch PRODUCT_GROUP_LIGHT =
      some (PRODUCT_GROUP_LIGHT, respDataList lr) := by
    unfold update_group_entry
    rw [hl]
    dsimp only
    rw [if_pos hcode]
  have hfan : update_group_entry fetch PRODUCT_GROUP_FAN = none := by
    unfold update_group_entry
    rw [hf]
  constructor
  · unfold update_data
    rw [hlight, hfan]
    simp [List.lookup]
  · unfold update_data
    rw [hlight, hfan]
    intro hmem
    simp only [Option.toList_some, Option.toList_none, List.nil_append,
      List.map_append, List.mem_append, List.map_cons, List.map_nil,
      List.mem_cons, List.not_mem_nil, or_false] at hmem
    rcases hmem with hmem | hmem
    · exact absurd hmem (by decide)
    · rcases (mem_other_part_keys fetch PRODUCT_GROUP_FAN).mp hmem with ⟨hg, _⟩
      exact absurd hg (by decide)

/-- C3 witness: the statement instantiated at a fetch oracle where only
the Light-group request succeeds. -/
theorem C3_partial_success_witness :
    List.lookup PRODUCT_GROUP_LIGHT (update_data fetchLightOnly) =
      some (respDataList lightOnlyResp) ∧
    PRODUCT_GROUP_FAN ∉ (update_data fetchLightOnly).map Prod.fst :=
  C3_partial_success fetchLightOnly lightOnlyResp (by decide) (by decide) (by decide)

/-- C4 (code bug): `login()` returns a plain boolean and does not raise
on declined credentials, as the claim says; but declined credentials do
NOT surface as `invalid_auth`: the `raise InvalidAuth` sits inside the
`try` block of `validate_input`, whose blanket `except Exception`
catches it and re-raises `CannotConnect`, so both a transport failure
and declined credentials show `cannot_connect`, and `invalid_auth` is
unreachable. -/
theorem C4_auth_errors_conflated :
    login declinedLogin = false ∧
    async_step_user declinedLogin = some "cannot_connect" ∧
    async_step_user declinedLogin ≠ some "invalid_auth" ∧
    async_step_user TransportOutcome.exc = some "cannot_connect" ∧
    ∀ t, async_step_user t ≠ some "invalid_auth" := by
  refine ⟨by decide, by decide, by decide, by decide, ?_⟩
  intro t
  unfold async_step_user validate_input
  cases login t <;> simp

/-- C5: for every raw brightness r in [0, 100], decoding r through the
light's brightness property and re-encoding the host value through the
turn-on conversion yields a raw percentage within ±1 of r. -/
theorem C5_brightness_roundtrip (r : ℕ) (h : r ≤ 100) :
    brightness (mkLight r) = some (raw_to_host_brightness r) ∧
    (host_to_raw_percentage (raw_to_host_brightness r) - r).natAbs ≤ 1 := by
  revert h
  revert r
  decide

/-- C5 witness: the statement instantiated at raw brightness 50
(host value 127, re-encoded raw value 49). -/
theorem C5_brightness_roundtrip_witness :
    brightness (mkLight 50) = some (raw_to_host_brightness 50) ∧
    (host_to_raw_percentage (raw_to_host_brightness 50) - (50 : ℕ)).natAbs ≤ 1 :=
  C5_brightness_roundtrip 50 (by decide)

/-- C6 (counterexample): the spec's rounding formulas disagree with the
code's truncation: encoding host brightness 4 gives `int(400/255) = 1`
but `round(400/255) = 2`, and decoding raw 1 gives `int(255/100) = 2`
but `round(255/100) = 3`. -/
theorem C6_counterexample :
    turn_on_brightness_percentage (some 4) (mkLight 0) = 1 ∧
    spec_host_to_raw 4 = 2 ∧
    turn_on_brightness_percentage (some 4) (mkLight 0) ≠ spec_host_to_raw 4 ∧
    brightness (mkLight 1) = some 2 ∧
    spec_raw_to_host 1 = 3 ∧
    brightness (mkLight 1) ≠ some (spec_raw_to_host 1) := by
  have e1 : turn_on_brightness_percentage (some 4) (mkLight 0) = 1 := by decide
  have e2 : spec_host_to_raw 4 = 2 := by rw [spec_host_to_raw]; norm_num [round_eq]
  have e3 : brightness (mkLight 1) = some 2 := by decide
  have e4 : spec_raw_to_host 1 = 3 := by rw [spec_raw_to_host]; norm_num [round_eq]
  refine ⟨e1, e2, ?_, e3, e4, ?_⟩
  · rw [e1, e2]; decide
  · rw [e3, e4]; decide

/-- C6 (amended): the brightness codec truncates instead of rounding:
for every host brightness h in [0, 255] the encoded raw value is
`floor(h * 100 / 255)`, and for every raw `lastBright` r in [0, 100]
the decoded host brightness is `clamp(floor(r * 255 / 100), 0, 255)`. -/
theorem C6_codec_floor (d : Device) (h r : ℤ)
    (hh0 : 0 ≤ h) (hh1 : h ≤ 255) (hr0 : 0 ≤ r) (hr1 : r ≤ 100) :
    turn_on_brightness_percentage (some h) d = floor_host_to_raw h ∧
    brightness (mkLight r) = some (floor_raw_to_host r) := by
  constructor
  · have hf : (h * 100).tdiv 255 = ⌊(h * 100 : ℚ) / 255⌋ := by
      have hq := tdiv_eq_floor_q (h * 100) 255 (by positivity)
      push_cast at hq
      exact hq
    simp [turn_on_brightness_percentage, host_to_raw_percentage, floor_host_to_raw, hf]
  · have hf : (r * 255).tdiv 100 = ⌊(r * 255 : ℚ) / 100⌋ := by
      have hq := tdiv_eq_floor_q (r * 255) 100 (by positivity)
      push_cast at hq
      exact hq
    simp [brightness, mkLight, jsonLoads, dictGet, raw_to_host_brightness,
      floor_raw_to_host, hf]

/-- C6 witness: the amended statement instantiated at host brightness
128 and raw brightness 50. -/
theorem C6_codec_floor_witness :
    turn_on_brightness_percentage (some 128) (mkLight 50) = floor_host_to_raw 128 ∧
    brightness (mkLight 50) = some (floor_raw_to_host 50) :=
  C6_codec_floor (mkLight 50) 128 50 (by norm_num) (by norm_num) (by norm_num)
    (by norm_num)

/-- C7: turning a fan off commands speed percentage exactly 25 (never
0), turning a light off commands raw brightness level exactly 0, and
every fan set-percentage command clamps the host-supplied value into
[25, 100] before sending. -/
theorem C7_turn_off_commands (d : Device) (p : Option Int) :
    fan_async_turn_off d = ApiCommand.setFanSpeed d.id 25 ∧
    light_async_turn_off d = ApiCommand.setLightBrightness d.id 0 ∧
    ∃ q, fan_async_set_percentage d p = ApiCommand.setFanSpeed d.id q ∧
      25 ≤ q ∧ q ≤ 100 := by
  refine ⟨?_, rfl, min (max (p.getD 0) 25) 100, rfl,
    le_min (le_max_right _ _) (by norm_num), min_le_right _ _⟩
  simp [fan_async_turn_off, fan_async_set_percentage]

/-- C8: an "other" group id appears as a key in the refreshed snapshot
exactly when its list request succeeded with status `"000"` and a
non-empty device list; in particular a successful request returning an
empty list leaves the group out rather than recording an empty entry. -/
theorem C8_other_group_key (fetch : Int → Option ApiResp) (g : Int)
    (hg : g ∈ PRODUCT_GROUP_OTHER) :
    g ∈ (update_data fetch).map Prod.fst ↔
      ∃ r, fetch g = some r ∧ r.code = "000" ∧ respDataList r ≠ [] := by
  have hg3 : g = 3 ∨ g = 6 ∨ g = 7 := by
    simpa [PRODUCT_GROUP_OTHER] using hg
  have hne1 : g ≠ PRODUCT_GROUP_LIGHT := by
    rcases hg3 with h | h | h <;> simp [h, PRODUCT_GROUP_LIGHT]
  have hne2 : g ≠ PRODUCT_GROUP_FAN := by
    rcases hg3 with h | h | h <;> simp [h, PRODUCT_GROUP_FAN]
  constructor
  · intro hmem
    unfold update_data at hmem
    simp only [List.map_append, List.mem_append] at hmem
    rcases hmem with (hmem | hmem) | hmem
    · exfalso
      rcases List.mem_map.mp hmem with ⟨p, hp, hfst⟩
      rcases Option.mem_toList.mp hp with hent
      have := update_group_entry_key fetch PRODUCT_GROUP_LIGHT p hent
      exact hne1 (by rw [← hfst, this])
    · exfalso
      rcases List.mem_map.mp hmem with ⟨p, hp, hfst⟩
      rcases Option.mem_toList.mp hp with hent
      have := update_group_entry_key fetch PRODUCT_GROUP_FAN p hent
      exact hne2 (by rw [← hfst, this])
    · exact ((mem_other_part_keys fetch g).mp hmem).2
  · intro hr
    unfold update_data
    simp only [List.map_append, List.mem_append]
    exact Or.inr ((mem_other_part_keys fetch g).mpr ⟨hg, hr⟩)

/-- C8 witness: the statement instantiated at group 3 and a fetch
oracle whose requests all succeed with an empty list; the group is
absent from the snapshot. -/
theorem C8_other_group_key_witness :
    (3 : Int) ∈ PRODUCT_GROUP_OTHER ∧
    ((3 : Int) ∈ (update_data fetchOtherEmpty).map Prod.fst ↔
      ∃ r, fetchOtherEmpty 3 = some r ∧ r.code = "000" ∧ respDataList r ≠ []) :=
  ⟨by decide, C8_other_group_key fetchOtherEmpty 3 (by decide)⟩

/-- C9: when either of the two "calculate" requests issued by
`set_fan_speed` yields no response, the method raises `AttributeError`
at the logging step (`None.get('data')`) instead of returning a
result, so the command operation is not total. -/
theorem C9_set_fan_speed_raises (deviceId speed_percentage : Int)
    (cfm_response pa_response : Option ApiResp)
    (h : cfm_response = none ∨ pa_response = none) :
    set_fan_speed deviceId speed_percentage cfm_response pa_response =
      Except.error PyExc.attributeError := by
  rcases h with h | h
  · subst h; rfl
  · subst h; cases cfm_response <;> rfl

/-- C9 witness: the statement instantiated with a failed CFM request
and a successful PA request. -/
theorem C9_set_fan_speed_raises_witness :
    set_fan_speed 7 50 none (some { code := "000", data := none }) =
      Except.error PyExc.attributeError :=
  C9_set_fan_speed_raises 7 50 none (some { code := "000", data := none })
    (Or.inl rfl)

/-- C10: for every light device whose `deviceInfo` is not valid JSON,
the brightness property returns `None`, and reading `is_on` then
raises a `TypeError` from comparing `None` with 0 instead of returning
a boolean. -/
theorem C10_is_on_raises (d : Device)
    (h : d.deviceInfo = some RawInfo.invalid) :
    brightness d = none ∧ is_on d = Except.error PyExc.typeError := by
  unfold is_on
  have hb : brightness d = none := by simp [brightness, h, jsonLoads]
  rw [hb]
  exact ⟨rfl, rfl⟩

/-- C10 witness: the statement instantiated at `badInfoDevice`. -/
theorem C10_is_on_raises_witness :
    badInfoDevice.deviceInfo = some RawInfo.invalid ∧
    brightness badInfoDevice = none ∧
    is_on badInfoDevice = Except.error PyExc.typeError :=
  ⟨rfl, C10_is_on_raises badInfoDevice rfl⟩

end MarsPro
